import Mathlib

/-!
Verification of the balQt stacked-widget repository: a shallow embedding of
`balQt/__init__.py` (Qt-binding resolution) and `balQt/stacked_widget.py`
(the `StackedWidget` overlay geometry engine), with theorems settling the
spec's claims about them.
-/

namespace BalQt

/-- The six supported Qt bindings, as named in `supported_qt_bindings` of
`balQt/__init__.py`. -/
inductive QtBinding where
  | pySide6
  | pyQt6
  | pyQt5
  | pySide2
  | pyQt4
  | pySide
deriving DecidableEq

/-- The package name of each binding, as spelled in the Python source. -/
def bindingName : QtBinding → String
  | .pySide6 => "PySide6"
  | .pyQt6 => "PyQt6"
  | .pyQt5 => "PyQt5"
  | .pySide2 => "PySide2"
  | .pyQt4 => "PyQt4"
  | .pySide => "PySide"

/-- `supported_qt_bindings = ["PySide6", "PyQt6", "PyQt5", "PySide2", "PyQt4", "PySide"]`:
the fixed priority order of the module-level scan. -/
def supported_qt_bindings : List QtBinding :=
  [.pySide6, .pyQt6, .pyQt5, .pySide2, .pyQt4, .pySide]

/-- The module-level binding scan of `balQt/__init__.py` (lines 17-36).
`inSysModules b` models `b in sys.modules`; `importableQtCore b` models
`importlib.import_module(b + ".QtCore")` succeeding.  The first loop picks the
first binding (in priority order) that is already loaded and whose `QtCore`
imports; if none, the second loop picks the first binding whose `QtCore`
imports. -/
def resolveBinding (inSysModules importableQtCore : QtBinding → Bool) :
    Option QtBinding :=
  match supported_qt_bindings.find? (fun b => inSysModules b && importableQtCore b) with
  | some b => some b
  | none => supported_qt_bindings.find? importableQtCore

/-- A single-quote character, used in the load-error message format. -/
def squote : String := String.singleton (Char.ofNat 39)

/-- The message of the `ImportError` raised by `import_qt_module` when a
submodule of the resolved binding cannot be imported (line 61 of
`balQt/__init__.py`): `Module <name> could not be loaded: <str(e)>`, with the
name in single quotes. -/
def loadErrorMessage (module_name detail : String) : String :=
  ("Module " ++ squote) ++ (module_name ++ (squote ++ (" could not be loaded: " ++ detail)))

/-- `import_qt_module` of `balQt/__init__.py` (lines 43-62).  `qtBindings`
models the module-level `QtBindings` variable; `moduleExists m` models
`importlib.import_module(QtBindings + "." + m)` succeeding, and
`importDetail m` the `str(e)` of the underlying `ImportError` when it fails.
The successful result is modelled by the fully qualified module name. -/
def import_qt_module (qtBindings : Option QtBinding)
    (moduleExists : String → Bool) (importDetail : String → String)
    (module_name : String) : Except String String :=
  match qtBindings with
  | some qb =>
      if moduleExists module_name then
        Except.ok (bindingName qb ++ "." ++ module_name)
      else
        Except.error (loadErrorMessage module_name (importDetail module_name))
  | none => Except.error "No Qt binding loaded."

/-- Module initialisation of `balQt/__init__.py` (lines 17-40): run the binding
scan, and raise `ImportError` with the fatal message of line 40 if it found
nothing. -/
def moduleInit (inSysModules importableQtCore : QtBinding → Bool) :
    Except String QtBinding :=
  match resolveBinding inSysModules importableQtCore with
  | some qb => Except.ok qb
  | none =>
      Except.error
        "Cannot load any of the supported Qt bindings: PySide6, PyQt6, PyQt5, PySide2, PyQt4, PySide"

/-- The alignment constants `StackedWidget` compares against, modelled as
distinct values (the toolkit's numeric encodings are out of scope).  `other`
stands for any alignment value outside the handled set, e.g. a combined flag
such as `AlignLeft|AlignTop`, which matches none of the equality tests. -/
inductive Alignment where
  | alignRight
  | alignLeft
  | alignLeading
  | alignTrailing
  | alignTop
  | alignBottom
  | alignCenter
  | alignHCenter
  | alignVCenter
  | alignJustify
  | alignAbsolute
  | alignBaseline
  | other
deriving DecidableEq

/-- `Qt.LayoutDirection` as consulted by `resizeEvent`. -/
inductive LayoutDirection where
  | leftToRight
  | rightToLeft
deriving DecidableEq

/-- An integer rectangle, as returned by `QWidget.geometry()`.  Following the
toolkit's integer-rectangle convention, `right = left + width - 1` and
`bottom = top + height - 1`. -/
structure QRect where
  x : Int
  y : Int
  w : Int
  h : Int
deriving DecidableEq

def QRect.left (r : QRect) : Int := r.x

def QRect.top (r : QRect) : Int := r.y

def QRect.width (r : QRect) : Int := r.w

def QRect.height (r : QRect) : Int := r.h

def QRect.right (r : QRect) : Int := r.x + r.w - 1

def QRect.bottom (r : QRect) : Int := r.y + r.h - 1

/-- An integer size, as returned by `QWidget.sizeHint()`. -/
structure QSize where
  w : Int
  h : Int
deriving DecidableEq

/-- The branch cascade of `StackedWidget.resizeEvent` (lines 94-157 of
`stacked_widget.py`): the rectangle passed to `self.top_widget.setGeometry`,
as a function of the alignment, the bottom widget's current layout direction,
the margin, the bottom widget's geometry and the top widget's size hint.
`none` means no branch matched and `setGeometry` was not called.  Python's
`//` is floor division, modelled by `Int.fdiv`. -/
def computeTopGeometry (alignment : Alignment) (direction : LayoutDirection)
    (margin : Int) (geometry : QRect) (topHint : QSize) : Option QRect :=
  let top_width := topHint.w
  let top_height := topHint.h
  if alignment = .alignRight ∨
      (alignment = .alignLeading ∧ direction = .rightToLeft) ∨
      (alignment = .alignTrailing ∧ direction = .leftToRight) then
    some ⟨geometry.right - margin - top_width,
          geometry.top + (geometry.height - top_height).fdiv 2,
          top_width, top_height⟩
  else if alignment = .alignLeft ∨
      (alignment = .alignLeading ∧ direction = .leftToRight) ∨
      (alignment = .alignTrailing ∧ direction = .rightToLeft) then
    some ⟨geometry.left + margin,
          geometry.top + (geometry.height - top_height).fdiv 2,
          top_width, top_height⟩
  else if alignment = .alignTop then
    some ⟨geometry.left + (geometry.width - top_width).fdiv 2,
          geometry.top + margin,
          top_width, top_height⟩
  else if alignment = .alignBottom then
    some ⟨geometry.left + (geometry.width - top_width).fdiv 2,
          geometry.bottom - margin - top_height,
          top_width, top_height⟩
  else if alignment = .alignCenter ∨ alignment = .alignVCenter ∨
      alignment = .alignHCenter then
    some ⟨geometry.left + (geometry.width - top_width).fdiv 2 +
            (if alignment = .alignVCenter then 0 else margin),
          geometry.top + (geometry.height - top_height).fdiv 2 +
            (if alignment = .alignHCenter then 0 else margin),
          top_width, top_height⟩
  else if alignment = .alignJustify then
    some ⟨geometry.left + margin.fdiv 2,
          geometry.top + margin.fdiv 2,
          geometry.width - margin,
          geometry.height - margin⟩
  else if alignment = .alignAbsolute then
    some ⟨geometry.left + margin.fdiv 2,
          geometry.top + (geometry.height - top_height).fdiv 2,
          geometry.width - margin,
          top_height⟩
  else if alignment = .alignBaseline then
    some ⟨geometry.left + (geometry.width - top_width).fdiv 2,
          geometry.top + margin.fdiv 2,
          top_width,
          geometry.height - margin⟩
  else
    none

/-- A toolkit event object, opaque to the handlers. -/
def QEvent : Type := Unit

/-- The observable state of a `StackedWidget` relevant to its event handlers:
the configuration read by `resizeEvent`, the top widget's current geometry
(written by `setGeometry`), and counters for the superclass handler calls. -/
structure WidgetState where
  alignment : Alignment
  margin : Int
  bottomGeometry : QRect
  topSizeHint : QSize
  bottomLayoutDirection : LayoutDirection
  topGeometry : QRect
  superResizeCalls : Nat
  superShowCalls : Nat
deriving DecidableEq

/-- `StackedWidget.resizeEvent` (lines 88-160): recompute the top widget's
geometry from the bottom widget's current geometry and the top widget's size
hint, then call `super().resizeEvent(event)` only when `event is not None`. -/
def resizeEvent (st : WidgetState) (event : Option QEvent) : WidgetState :=
  let st' :=
    match computeTopGeometry st.alignment st.bottomLayoutDirection st.margin
        st.bottomGeometry st.topSizeHint with
    | some r => { st with topGeometry := r }
    | none => st
  match event with
  | some _ => { st' with superResizeCalls := st'.superResizeCalls + 1 }
  | none => st'

/-- `StackedWidget.showEvent` (lines 83-86): `self.resizeEvent(None)` followed
by `super().showEvent(event)`. -/
def showEvent (st : WidgetState) (_event : QEvent) : WidgetState :=
  let st' := resizeEvent st none
  { st' with superShowCalls := st'.superShowCalls + 1 }

/-- The size-related attributes `StackedWidget.__init__` may write: the two
widgets' minimum sizes and the top widget's size policy per axis. -/
structure SizingState where
  bottomMinWidth : Int
  bottomMinHeight : Int
  topMinWidth : Int
  topMinHeight : Int
  topHPolicy : Bool
  topVPolicy : Bool
deriving DecidableEq

/-- The construction-time sizing adjustment of `StackedWidget.__init__`
(lines 53-81 of `stacked_widget.py`), as a function of the alignment, the
margin, the two widgets' size hints and the prior sizing state.  The Boolean
policy fields record whether the corresponding axis policy was set to
`QSizePolicy.MinimumExpanding`. -/
def initAdjustSizes (alignment : Alignment) (margin : Int)
    (bottomHint topHint : QSize) (st : SizingState) : SizingState :=
  if alignment ∈ ([.alignRight, .alignLeft, .alignLeading, .alignTrailing] : List Alignment) then
    { st with bottomMinWidth := bottomHint.w + 2 * (topHint.w + margin) }
  else if alignment ∈ ([.alignTop, .alignBottom] : List Alignment) then
    { st with bottomMinHeight := bottomHint.h + 2 * (topHint.h + margin) }
  else
    let st1 :=
      if alignment ∈ ([.alignAbsolute, .alignJustify] : List Alignment) then
        let width := max topHint.w bottomHint.w
        { st with topMinWidth := width, bottomMinWidth := width + margin,
                  topHPolicy := true }
      else st
    let st2 :=
      if alignment ∈ ([.alignBaseline, .alignJustify] : List Alignment) then
        let height := max topHint.h bottomHint.h
        { st1 with topMinHeight := height, bottomMinHeight := height + margin,
                   topVPolicy := true }
      else st1
    if alignment ∈ ([.alignCenter, .alignVCenter, .alignHCenter] : List Alignment) then
      let margin_horizontal :=
        if alignment ∈ ([.alignCenter, .alignHCenter] : List Alignment) then margin else 0
      let margin_vertical :=
        if alignment ∈ ([.alignCenter, .alignVCenter] : List Alignment) then margin else 0
      { st2 with
          bottomMinWidth := max bottomHint.w (topHint.w + margin_horizontal),
          bottomMinHeight := max bottomHint.h (topHint.h + margin_vertical) }
    else st2

/-! ## Theorems -/

/-- C1 counterexample: the spec's test-table row for Right alignment fails on
the code.  With bottom geometry `(0,0,200,100)`, top size hint `(40,20)` and
margin `10`, the Right branch places the top widget at x `149`, not `150`,
because `QRect.right()` is `left + width - 1`. -/
theorem resize_test_table_right_row_fails :
    computeTopGeometry .alignRight .leftToRight 10 ⟨0, 0, 200, 100⟩ ⟨40, 20⟩ ≠
      some ⟨150, 40, 40, 20⟩ := by
  decide

/-- C1 (amended): with bottom geometry `(0,0,200,100)`, top size hint
`(40,20)` and margin `10`, Right alignment yields top rect `(149,40,40,20)`,
Left yields `(10,40,40,20)`, Top yields `(80,10,40,20)`, Bottom yields
`(80,69,40,20)` and Center yields `(90,50,40,20)` (the `(80,40,40,20)` base
rect shifted by the margin on both axes); the Right and Bottom rows differ by
one pixel from the spec's table because the toolkit rectangle's `right` and
`bottom` are `left + width - 1` and `top + height - 1`. -/
theorem resize_test_table_amended :
    computeTopGeometry .alignRight .leftToRight 10 ⟨0, 0, 200, 100⟩ ⟨40, 20⟩ =
        some ⟨149, 40, 40, 20⟩ ∧
      computeTopGeometry .alignLeft .leftToRight 10 ⟨0, 0, 200, 100⟩ ⟨40, 20⟩ =
        some ⟨10, 40, 40, 20⟩ ∧
      computeTopGeometry .alignTop .leftToRight 10 ⟨0, 0, 200, 100⟩ ⟨40, 20⟩ =
        some ⟨80, 10, 40, 20⟩ ∧
      computeTopGeometry .alignBottom .leftToRight 10 ⟨0, 0, 200, 100⟩ ⟨40, 20⟩ =
        some ⟨80, 69, 40, 20⟩ ∧
      computeTopGeometry .alignCenter .leftToRight 10 ⟨0, 0, 200, 100⟩ ⟨40, 20⟩ =
        some ⟨90, 50, 40, 20⟩ := by
  refine ⟨by decide, by decide, by decide, by decide, by decide⟩

/-- C2 counterexample: the spec's margin rule for the center alignments fails
on the code.  For HCenter with margin `10`, bottom geometry `(0,0,200,100)`
and top size hint `(40,20)`, the claim predicts `(80,50,40,20)` (margin
skipped on x for HCenter, added on y), but the code skips the margin on y and
adds it on x, producing `(90,40,40,20)`. -/
theorem center_margin_rule_hcenter_fails :
    computeTopGeometry .alignHCenter .leftToRight 10 ⟨0, 0, 200, 100⟩ ⟨40, 20⟩ ≠
      some ⟨80, 50, 40, 20⟩ := by
  decide

/-- C2 (amended): for the Center, HCenter and VCenter alignments the top
widget rectangle is `x = G.left + (G.width - topW) / 2` with the margin added
unless the alignment is VCenter, `y = G.top + (G.height - topH) / 2` with the
margin added unless the alignment is HCenter, width `topW` and height `topH`
(the margin exemptions are the mirror of the spec's brackets). -/
theorem center_margin_rule_amended (a : Alignment) (d : LayoutDirection)
    (m : Int) (g : QRect) (t : QSize)
    (ha : a = .alignCenter ∨ a = .alignHCenter ∨ a = .alignVCenter) :
    computeTopGeometry a d m g t =
      some ⟨g.left + (g.width - t.w).fdiv 2 + (if a = .alignVCenter then 0 else m),
            g.top + (g.height - t.h).fdiv 2 + (if a = .alignHCenter then 0 else m),
            t.w, t.h⟩ := by
  rcases ha with rfl | rfl | rfl <;> cases d <;> rfl

/-- Witness for `center_margin_rule_amended` at HCenter, margin `10`, bottom
geometry `(0,0,200,100)`, top size hint `(40,20)`. -/
theorem center_margin_rule_amended_witness :
    computeTopGeometry .alignHCenter .leftToRight 10 ⟨0, 0, 200, 100⟩ ⟨40, 20⟩ =
      some ⟨(0 : Int) + ((200 : Int) - 40).fdiv 2 + 10,
            (0 : Int) + ((100 : Int) - 20).fdiv 2 + 0, 40, 20⟩ := by
  have h := center_margin_rule_amended .alignHCenter .leftToRight 10
    ⟨0, 0, 200, 100⟩ ⟨40, 20⟩ (Or.inr (Or.inl rfl))
  simpa [QRect.left, QRect.top, QRect.width, QRect.height] using h

/-- C3: binding resolution is a deterministic function of which bindings are
importable (`imp`) and which are already loaded (`inMods`).  First conjunct:
when no binding is both loaded and importable, the result is the first
importable binding in the fixed priority order PySide6, PyQt6, PyQt5,
PySide2, PyQt4, PySide.  Second conjunct: when exactly one binding is already
loaded and its `QtCore` imports, that binding is chosen, regardless of where
it sits in the priority order and even if higher-priority bindings are
importable but not yet loaded. -/
theorem resolveBinding_deterministic_prefers_loaded
    (inMods imp : QtBinding → Bool) :
    ((∀ b ∈ supported_qt_bindings, ¬(inMods b = true ∧ imp b = true)) →
        resolveBinding inMods imp = supported_qt_bindings.find? imp) ∧
      (∀ b ∈ supported_qt_bindings, inMods b = true → imp b = true →
        (∀ b₂ ∈ supported_qt_bindings, b₂ ≠ b → inMods b₂ = false) →
        resolveBinding inMods imp = some b) := by
  constructor
  · intro h
    have hnone : supported_qt_bindings.find? (fun b => inMods b && imp b) = none := by
      rw [List.find?_eq_none]
      intro b hb
      simp only [Bool.and_eq_true]
      exact h b hb
    simp [resolveBinding, hnone]
  · intro b hb h1 h2 hOnly
    have hpred : ∀ b₂ ∈ supported_qt_bindings, b₂ ≠ b → (inMods b₂ && imp b₂) = false := by
      intro b₂ hb₂ hne
      simp [hOnly b₂ hb₂ hne]
    have hself : (inMods b && imp b) = true := by simp [h1, h2]
    cases b <;> simp_all [resolveBinding, supported_qt_bindings, List.find?]

/-- Witness for `resolveBinding_deterministic_prefers_loaded`: with only PyQt5
loaded but every binding importable, PyQt5 is chosen over the
higher-priority PySide6 and PyQt6. -/
theorem resolveBinding_prefers_loaded_witness :
    resolveBinding (fun b => decide (b = QtBinding.pyQt5)) (fun _ => true) =
      some QtBinding.pyQt5 :=
  (resolveBinding_deterministic_prefers_loaded
      (fun b => decide (b = QtBinding.pyQt5)) (fun _ => true)).2
    QtBinding.pyQt5 (by decide) (by decide) rfl
    (by intro b₂ _ hne; simp [hne])

/-- C4: when the requested submodule does not exist on the resolved binding,
`import_qt_module` returns exactly one load error, whose message contains the
missing submodule's name (it is `Module <name> could not be loaded: <detail>`
with the name quoted); when the submodule exists, it is returned without
error. -/
theorem import_qt_module_spec (qb : QtBinding) (ex : String → Bool)
    (d : String → String) (name : String) :
    (ex name = false →
        import_qt_module (some qb) ex d name =
          Except.error (loadErrorMessage name (d name)) ∧
        ∃ pre post, loadErrorMessage name (d name) = pre ++ (name ++ post)) ∧
      (ex name = true →
        import_qt_module (some qb) ex d name =
          Except.ok (bindingName qb ++ "." ++ name)) := by
  constructor
  · intro h
    refine ⟨by simp [import_qt_module, h], "Module " ++ squote,
      squote ++ (" could not be loaded: " ++ d name), rfl⟩
  · intro h
    simp [import_qt_module, h]

/-- Witness for `import_qt_module_spec`: a missing `QtWidgets` submodule
yields the load error naming it, and an existing one is returned. -/
theorem import_qt_module_spec_witness :
    import_qt_module (some QtBinding.pySide6) (fun _ => false)
        (fun _ => "No module") "QtWidgets" =
      Except.error (loadErrorMessage "QtWidgets" "No module") ∧
    import_qt_module (some QtBinding.pySide6) (fun _ => true)
        (fun _ => "No module") "QtWidgets" =
      Except.ok "PySide6.QtWidgets" :=
  ⟨((import_qt_module_spec QtBinding.pySide6 (fun _ => false)
      (fun _ => "No module") "QtWidgets").1 rfl).1,
    (import_qt_module_spec QtBinding.pySide6 (fun _ => true)
      (fun _ => "No module") "QtWidgets").2 rfl⟩

/-- C5: when none of the supported bindings can be loaded, module
initialisation fails with the fatal startup error, raised once by the
module-level code, and its message names all six attempted bindings: it is
the header followed by the comma-separated names of every entry of
`supported_qt_bindings`. -/
theorem moduleInit_fatal_when_no_binding (inMods imp : QtBinding → Bool)
    (h : ∀ b ∈ supported_qt_bindings, imp b = false) :
    moduleInit inMods imp =
      Except.error ("Cannot load any of the supported Qt bindings: " ++
        String.intercalate ", " (supported_qt_bindings.map bindingName)) := by
  have h1 : supported_qt_bindings.find? (fun b => inMods b && imp b) = none := by
    rw [List.find?_eq_none]
    intro b hb
    simp [h b hb]
  have h2 : supported_qt_bindings.find? imp = none := by
    rw [List.find?_eq_none]
    intro b hb
    simp [h b hb]
  simp [moduleInit, resolveBinding, h1, h2]
  rfl

/-- Witness for `moduleInit_fatal_when_no_binding` with no binding importable. -/
theorem moduleInit_fatal_witness :
    moduleInit (fun _ => false) (fun _ => false) =
      Except.error ("Cannot load any of the supported Qt bindings: " ++
        String.intercalate ", " (supported_qt_bindings.map bindingName)) :=
  moduleInit_fatal_when_no_binding (fun _ => false) (fun _ => false)
    (fun _ _ => rfl)

/-- C6: Leading resolves identically to Left and Trailing to Right under a
left-to-right layout direction, and the two swap (Leading as Right, Trailing
as Left) under right-to-left; and every resize reads the bottom widget's
current layout direction from the state at the time of the call (last
conjunct), so the aliasing is re-evaluated on every resize rather than
cached. -/
theorem leading_trailing_alias :
    (∀ (m : Int) (g : QRect) (t : QSize),
        computeTopGeometry .alignLeading .leftToRight m g t =
          computeTopGeometry .alignLeft .leftToRight m g t) ∧
      (∀ (m : Int) (g : QRect) (t : QSize),
        computeTopGeometry .alignTrailing .leftToRight m g t =
          computeTopGeometry .alignRight .leftToRight m g t) ∧
      (∀ (m : Int) (g : QRect) (t : QSize),
        computeTopGeometry .alignLeading .rightToLeft m g t =
          computeTopGeometry .alignRight .rightToLeft m g t) ∧
      (∀ (m : Int) (g : QRect) (t : QSize),
        computeTopGeometry .alignTrailing .rightToLeft m g t =
          computeTopGeometry .alignLeft .rightToLeft m g t) ∧
      (∀ (st : WidgetState) (ev : Option QEvent),
        (resizeEvent st ev).topGeometry =
          (computeTopGeometry st.alignment st.bottomLayoutDirection st.margin
            st.bottomGeometry st.topSizeHint).getD st.topGeometry) := by
  refine ⟨fun m g t => rfl, fun m g t => rfl, fun m g t => rfl, fun m g t => rfl,
    fun st ev => ?_⟩
  cases h : computeTopGeometry st.alignment st.bottomLayoutDirection st.margin
      st.bottomGeometry st.topSizeHint <;>
    cases ev <;> simp [resizeEvent, h]

/-- C7: the per-resize computation is idempotent: running `resizeEvent` a
second time on the resulting state, with an identical event, leaves the top
widget's geometry identical, because the handler writes only the top
widget's geometry and the superclass counters, never the inputs it reads. -/
theorem resizeEvent_idempotent (st : WidgetState) (ev : Option QEvent) :
    (resizeEvent (resizeEvent st ev) ev).topGeometry =
      (resizeEvent st ev).topGeometry := by
  cases h : computeTopGeometry st.alignment st.bottomLayoutDirection st.margin
      st.bottomGeometry st.topSizeHint <;>
    cases ev <;> simp [resizeEvent, h]

/-- C9: for an alignment value outside the handled set (modelled by
`Alignment.other`, e.g. a combined flag such as `AlignLeft|AlignTop`), the
resize handler matches no branch and leaves the top widget's geometry
unchanged; `resizeEvent` is a total function, so no error is raised. -/
theorem unhandled_alignment_leaves_geometry (st : WidgetState)
    (ev : Option QEvent) (h : st.alignment = .other) :
    (resizeEvent st ev).topGeometry = st.topGeometry := by
  cases ev <;> simp [resizeEvent, computeTopGeometry, h]

/-- Witness for `unhandled_alignment_leaves_geometry`: a concrete state with
an unhandled alignment keeps its top-widget geometry `(1,2,3,4)` across a
real resize event. -/
theorem unhandled_alignment_leaves_geometry_witness :
    (resizeEvent
        ⟨.other, 10, ⟨0, 0, 200, 100⟩, ⟨40, 20⟩, .leftToRight, ⟨1, 2, 3, 4⟩, 0, 0⟩
        (some ⟨⟩)).topGeometry = ⟨1, 2, 3, 4⟩ :=
  unhandled_alignment_leaves_geometry
    ⟨.other, 10, ⟨0, 0, 200, 100⟩, ⟨40, 20⟩, .leftToRight, ⟨1, 2, 3, 4⟩, 0, 0⟩
    (some ⟨⟩) rfl

/-- C10: a show event performs a synthetic resize pass with a `None` event
that recomputes the top widget's geometry exactly as a real resize does,
while the superclass resize handler runs only for real (non-`None`) resize
events: it is not invoked during the synthetic pass, and exactly once per
real resize. -/
theorem showEvent_synthetic_resize (st : WidgetState) (e : QEvent) :
    (showEvent st e).topGeometry = (resizeEvent st (some e)).topGeometry ∧
      (showEvent st e).superResizeCalls = st.superResizeCalls ∧
      (resizeEvent st (some e)).superResizeCalls = st.superResizeCalls + 1 := by
  cases h : computeTopGeometry st.alignment st.bottomLayoutDirection st.margin
      st.bottomGeometry st.topSizeHint <;>
    simp [showEvent, resizeEvent, h]

/-- C8: at construction, for each alignment in the Left/Right/Leading/Trailing
class the bottom widget's minimum width is set (once) to its preferred width
plus `2 * (top preferred width + margin)`, and its minimum height is left
unchanged. -/
theorem init_horizontal_min_width_inflation (a : Alignment) (m : Int)
    (bottomHint topHint : QSize) (st : SizingState)
    (h : a ∈ ([.alignRight, .alignLeft, .alignLeading, .alignTrailing] : List Alignment)) :
    (initAdjustSizes a m bottomHint topHint st).bottomMinWidth =
        bottomHint.w + 2 * (topHint.w + m) ∧
      (initAdjustSizes a m bottomHint topHint st).bottomMinHeight =
        st.bottomMinHeight := by
  simp only [List.mem_cons, List.not_mem_nil, or_false] at h
  rcases h with rfl | rfl | rfl | rfl <;> exact ⟨rfl, rfl⟩

/-- Witness for `init_horizontal_min_width_inflation` at Right alignment,
margin `10`, bottom hint `(100,50)`, top hint `(40,20)`. -/
theorem init_horizontal_min_width_inflation_witness :
    (initAdjustSizes .alignRight 10 ⟨100, 50⟩ ⟨40, 20⟩
          ⟨0, 0, 0, 0, false, false⟩).bottomMinWidth = 100 + 2 * (40 + 10) ∧
      (initAdjustSizes .alignRight 10 ⟨100, 50⟩ ⟨40, 20⟩
          ⟨0, 0, 0, 0, false, false⟩).bottomMinHeight = 0 :=
  init_horizontal_min_width_inflation .alignRight 10 ⟨100, 50⟩ ⟨40, 20⟩
    ⟨0, 0, 0, 0, false, false⟩ (by decide)

end BalQt
